import Mathlib

/-
Verification of the persistence/ownership model of the Guest Faculty
Checklist application (app_v5_excel.py), as a shallow embedding.

The Record Store is a flat list of checklist rows; the User Store is a
flat list of accounts.  Pandas dataframe operations are embedded as list
operations: boolean-mask filtering becomes List.filter, drop_duplicates
becomes a first-occurrence deduplication, loc-assignment over a mask
becomes List.map with a conditional update.  The SHA-256 password hash
is kept abstract: every function and theorem that mentions hashing is
parametrised by an arbitrary hash function (hp : String → String), since
the control flow of the source never inspects hash values beyond
equality.  Timestamps (datetime.now) are passed in as an explicit
(now : String) parameter.  Python str.strip is embedded as pyStrip,
which drops leading and trailing whitespace characters; it is defined
over the character list of the string so that it evaluates by kernel
reduction on concrete inputs.
-/

/-- Python str.strip with no argument: remove leading and trailing
whitespace. -/
def pyStrip (s : String) : String :=
  ⟨((s.data.dropWhile Char.isWhitespace).reverse.dropWhile
      Char.isWhitespace).reverse⟩

/-- A row of the Record Store: one checklist line item, mirroring the
columns Owner, Name, Designation, Session Name, Session Date,
Checklist Item, Status, Remarks, Last Updated, Updated By of the CSV. -/
structure Row where
  owner : String
  name : String
  designation : String
  sessionName : String
  sessionDate : String
  item : String
  status : String
  remarks : String
  lastUpdated : String
  updatedBy : String
deriving DecidableEq, Repr

/-- A row of the User Store: one account, mirroring the columns
username, password (stored hash), role, full_name, email, created_date,
active of users_data.csv. -/
structure UserRow where
  username : String
  password : String
  role : String
  fullName : String
  email : String
  createdDate : String
  active : Bool
deriving DecidableEq, Repr

/-- First-occurrence deduplication with an accumulator of already seen
values; embeds pandas Series.unique and DataFrame.drop_duplicates,
which keep the first occurrence of each value. -/
def dedupFirst {α : Type} [DecidableEq α] (seen : List α) : List α → List α
  | [] => []
  | x :: xs => if x ∈ seen then dedupFirst seen xs else x :: dedupFirst (x :: seen) xs

/-- The distinct values of a list in order of first occurrence. -/
def uniqueList {α : Type} [DecidableEq α] (l : List α) : List α :=
  dedupFirst [] l

/-- Membership in dedupFirst: an element appears iff it appears in the
input and was not already seen. -/
theorem mem_dedupFirst {α : Type} [DecidableEq α] (a : α) :
    ∀ (l seen : List α), a ∈ dedupFirst seen l ↔ a ∈ l ∧ a ∉ seen := by
  intro l
  induction l with
  | nil => intro seen; simp [dedupFirst]
  | cons x xs ih =>
    intro seen
    by_cases hx : x ∈ seen
    · simp only [dedupFirst, if_pos hx, ih]
      constructor
      · rintro ⟨h1, h2⟩; exact ⟨List.mem_cons_of_mem _ h1, h2⟩
      · rintro ⟨h1, h2⟩
        rcases List.mem_cons.mp h1 with h | h
        · exact absurd (h ▸ hx) h2
        · exact ⟨h, h2⟩
    · simp only [dedupFirst, if_neg hx]
      constructor
      · intro h
        rcases List.mem_cons.mp h with h | h
        · exact ⟨h ▸ List.mem_cons_self x xs, h ▸ hx⟩
        · rcases (ih (x :: seen)).mp h with ⟨h1, h2⟩
          refine ⟨List.mem_cons_of_mem _ h1, fun hc => h2 (List.mem_cons_of_mem _ hc)⟩
      · rintro ⟨h1, h2⟩
        rcases List.mem_cons.mp h1 with h | h
        · exact h ▸ List.mem_cons_self x _
        · by_cases hax : a = x
          · exact hax ▸ List.mem_cons_self x _
          · exact List.mem_cons_of_mem _ ((ih (x :: seen)).mpr
              ⟨h, fun hc => (List.mem_cons.mp hc).elim hax h2⟩)

/-- Membership in uniqueList is membership in the input. -/
theorem mem_uniqueList {α : Type} [DecidableEq α] (a : α) (l : List α) :
    a ∈ uniqueList l ↔ a ∈ l := by
  simp [uniqueList, mem_dedupFirst]

/-- dedupFirst contains no duplicates. -/
theorem nodup_dedupFirst {α : Type} [DecidableEq α] :
    ∀ (l seen : List α), (dedupFirst seen l).Nodup := by
  intro l
  induction l with
  | nil => intro seen; simp [dedupFirst]
  | cons x xs ih =>
    intro seen
    by_cases hx : x ∈ seen
    · simpa [dedupFirst, if_pos hx] using ih seen
    · simp only [dedupFirst, if_neg hx]
      refine List.nodup_cons.mpr ⟨?_, ih (x :: seen)⟩
      intro hc
      exact ((mem_dedupFirst x xs (x :: seen)).mp hc).2 (List.mem_cons_self x seen)

/-- uniqueList has no duplicates. -/
theorem nodup_uniqueList {α : Type} [DecidableEq α] (l : List α) :
    (uniqueList l).Nodup :=
  nodup_dedupFirst l []

/-- The length of uniqueList is the number of distinct values of the
input list. -/
theorem length_uniqueList_eq_card {α : Type} [DecidableEq α] (l : List α) :
    (uniqueList l).length = l.toFinset.card := by
  have hfin : (uniqueList l).toFinset = l.toFinset := by
    ext a
    simp [List.mem_toFinset, mem_uniqueList]
  calc (uniqueList l).length
      = (uniqueList l).toFinset.card :=
        (List.toFinset_card_of_nodup (nodup_uniqueList l)).symm
    _ = l.toFinset.card := by rw [hfin]

/-- The module-level role-based filter applied to the loaded Record
Store before any view reads it (lines 664 to 666 of app_v5_excel.py):
a non-admin session sees only the rows it owns, an admin session sees
the store unchanged. -/
def roleFilter (role user : String) (rows : List Row) : List Row :=
  if role ≠ "admin" then rows.filter (fun r => r.owner = user) else rows

/-- authenticate_user of app_v5_excel.py (lines 82 to 98), parametrised
by the hash function hp.  The result mirrors the Python triple
(success, role, full_name): not found gives (false, none, none),
an inactive account gives the inactive message before the password is
checked, a hash mismatch gives the invalid-password message, and
success carries the role and full name of the account. -/
def authenticate_user (hp : String → String) (users : List UserRow)
    (username password : String) : Bool × Option String × Option String :=
  match users.find? (fun u => u.username = username) with
  | none => (false, none, none)
  | some u =>
    if !u.active then (false, none, some "Account is inactive")
    else if u.password = hp password then (true, some u.role, some u.fullName)
    else (false, none, some "Invalid password")

/-- The per-field update applied by update_user to the matched account.
Python truthiness is embedded faithfully: for the string fields the
source tests the bare value, so a supplied empty string behaves like an
absent argument, while active is tested against None and so any
supplied boolean, including false, overwrites. -/
def applyUserUpdates (hp : String → String) (fullName email password : Option String)
    (active : Option Bool) (u : UserRow) : UserRow :=
  { u with
    fullName := match fullName with
      | some s => if s = "" then u.fullName else s
      | none => u.fullName
    email := match email with
      | some s => if s = "" then u.email else s
      | none => u.email
    password := match password with
      | some s => if s = "" then u.password else hp s
      | none => u.password
    active := active.getD u.active }

/-- Replace the first element satisfying p by its image under f;
returns none when no element matches.  This embeds the pandas pattern
of locating the first index with a matching username and assigning at
that index. -/
def updateFirst {α : Type} (p : α → Bool) (f : α → α) : List α → Option (List α)
  | [] => none
  | u :: us =>
    if p u then some (f u :: us)
    else (updateFirst p f us).map (fun l => u :: l)

/-- update_user of app_v5_excel.py (lines 121 to 140): not found if the
username is absent, otherwise the first account with that username is
updated field by field and the rest are untouched.  The result mirrors
the Python pair (ok, message) together with the saved User Store. -/
def update_user (hp : String → String) (users : List UserRow) (username : String)
    (fullName email password : Option String) (active : Option Bool) :
    Bool × String × List UserRow :=
  match updateFirst (fun u => u.username = username)
      (applyUserUpdates hp fullName email password active) users with
  | none => (false, "User not found", users)
  | some users2 => (true, "User updated successfully", users2)

/-- delete_user of app_v5_excel.py (lines 142 to 157): refused for the
admin account with both stores unchanged; otherwise every Record Store
row owned by the username is removed and the account is removed.  The
result mirrors (ok, message) together with the saved User Store and
Record Store. -/
def delete_user (username : String) (users : List UserRow) (df : List Row) :
    Bool × String × List UserRow × List Row :=
  if username = "admin" then (false, "Cannot delete admin account", users, df)
  else (true, "User deleted successfully",
    users.filter (fun u => !(u.username = username)),
    df.filter (fun r => !(r.owner = username)))

/-- The fresh rows built by add_new_faculty for one new visit: one
Pending row per distinct Checklist Item value currently present in the
store, in order of first occurrence, with the stripped input fields and
the creating owner stamped as Updated By. -/
def newVisitRecords (owner name designation sessionName sessionDate now : String)
    (df : List Row) : List Row :=
  (uniqueList (df.map Row.item)).map (fun it =>
    { owner := owner
      name := (pyStrip name)
      designation := (pyStrip designation)
      sessionName := (pyStrip sessionName)
      sessionDate := sessionDate
      item := it
      status := "Pending"
      remarks := ""
      lastUpdated := now
      updatedBy := owner })

/-- add_new_faculty of app_v5_excel.py (lines 314 to 346).  The first
component mirrors the returned message; the second component is some of
the saved store exactly when the source calls save_data and returns
Success, and none on the failure paths, where the persisted store is
left unchanged. -/
def add_new_faculty (owner name designation sessionName sessionDate now : String)
    (df : List Row) : String × Option (List Row) :=
  if (pyStrip name) = "" then ("Name cannot be empty", none)
  else if df.any (fun r =>
      r.owner = owner ∧ r.name = (pyStrip name) ∧ r.sessionDate = sessionDate) then
    ("Faculty with this name and session date already exists", none)
  else
    ("Success", some (df ++ newVisitRecords owner name designation sessionName sessionDate now df))

/-- delete_faculty of app_v5_excel.py (lines 348 to 352): keeps exactly
the rows whose (Owner, Name, Session Date) differs from the key; always
succeeds and returns the saved store. -/
def delete_faculty (owner name sessionDate : String) (df : List Row) : List Row :=
  df.filter (fun r =>
    !(r.owner = owner ∧ r.name = name ∧ r.sessionDate = sessionDate))

/-- The per-row update of the success branch of edit_faculty: a row of
the old visit gets the stripped new key fields and the Last Updated and
Updated By stamps, any other row is returned unchanged.  This embeds
the loc-assignments over the old-key mask at lines 377 to 382. -/
def renameRowIfMatch (owner oldName oldSessionDate newName newDesignation
    newSessionName newSessionDate now : String) (r : Row) : Row :=
  if r.owner = owner ∧ r.name = oldName ∧ r.sessionDate = oldSessionDate then
    { r with
      name := (pyStrip newName)
      designation := (pyStrip newDesignation)
      sessionName := (pyStrip newSessionName)
      sessionDate := newSessionDate
      lastUpdated := now
      updatedBy := owner }
  else r

/-- edit_faculty of app_v5_excel.py (lines 354 to 385).  Checks, in
source order: blank new name; collision of the new key with rows other
than those of the old (name, date) pair; absence of the old key.  On
success every row of the old visit gets the new key fields and the
Last Updated and Updated By stamps via renameRowIfMatch.  The second
component is some of the saved store exactly when the source saves, as
in add_new_faculty. -/
def edit_faculty (owner oldName oldSessionDate newName newDesignation
    newSessionName newSessionDate now : String) (df : List Row) :
    String × Option (List Row) :=
  if (pyStrip newName) = "" then ("Name cannot be empty", none)
  else if df.any (fun r =>
      r.owner = owner ∧ r.name = (pyStrip newName) ∧ r.sessionDate = newSessionDate ∧
      !(r.name = oldName ∧ r.sessionDate = oldSessionDate)) then
    ("Faculty with this name and session date already exists", none)
  else if !(df.any (fun r =>
      r.owner = owner ∧ r.name = oldName ∧ r.sessionDate = oldSessionDate)) then
    ("Faculty not found", none)
  else
    ("Success", some (df.map (renameRowIfMatch owner oldName oldSessionDate
      newName newDesignation newSessionName newSessionDate now)))

/-- A row of the summary table produced by get_faculty_summary, with
the columns Owner, Name, Designation, Session Name, Session Date,
Total Items, Done, Pending, N/A, Progress %. -/
structure SummaryRow where
  owner : String
  name : String
  designation : String
  sessionName : String
  sessionDate : String
  totalItems : Nat
  done : Nat
  pending : Nat
  na : Nat
  progressPct : ℚ
deriving DecidableEq, Repr

/-- Rounding to one decimal place over the rationals, embedding round(x, 1).
Note Python rounds floats and breaks exact ties to even; this model
rounds ties up, which agrees with the source at every non-tie value and
at every value relevant to the claims. -/
def round1 (q : ℚ) : ℚ :=
  ((round (q * 10) : ℤ) : ℚ) / 10

/-- The body of the summary loop of get_faculty_summary (lines 417 to
442): for one (Owner, Name, Session Date, Designation, Session Name)
tuple it counts the rows of the (Owner, Name, Session Date) key with
each status and computes progress as Done over Total times one hundred
rounded to one decimal, zero when the visit has no rows. -/
def summaryOfKey (df : List Row)
    (k : String × String × String × String × String) : SummaryRow :=
  let fd := df.filter (fun r =>
    r.owner = k.1 ∧ r.name = k.2.1 ∧ r.sessionDate = k.2.2.1)
  let total := fd.length
  let done := (fd.filter (fun r => r.status = "Done")).length
  let pending := (fd.filter (fun r => r.status = "Pending")).length
  let na := (fd.filter (fun r => r.status = "NA")).length
  { owner := k.1
    name := k.2.1
    sessionDate := k.2.2.1
    designation := k.2.2.2.1
    sessionName := k.2.2.2.2
    totalItems := total
    done := done
    pending := pending
    na := na
    progressPct :=
      if total > 0 then round1 ((done : ℚ) / (total : ℚ) * 100) else 0 }

/-- get_faculty_summary of app_v5_excel.py (lines 412 to 444): the
drop_duplicates call keeps the first occurrence of each
(Owner, Name, Session Date, Designation, Session Name) tuple and the
loop builds one summary row per kept tuple. -/
def get_faculty_summary (df : List Row) : List SummaryRow :=
  (uniqueList (df.map (fun r =>
      (r.owner, r.name, r.sessionDate, r.designation, r.sessionName)))).map
    (summaryOfKey df)

/-- The checklist items seeded when no Excel workbook is available
(lines 194 to 217 and the identical fallback of the exception handler). -/
def default_checklist_items : List String :=
  ["Letter to Guest Faculty",
   "Letter to Boss",
   "Tour Program",
   "Room Book",
   "Inbound Vehicle",
   "Outbound Vehicle",
   "Book Tickets",
   "Protocol Officer",
   "Link (if Online mode)",
   "Biodata of Faculty",
   "Name Plate",
   "Welcome Board",
   "Faculty Folder (OTs Biodata, Schedule, Pen)",
   "Local Vehicle",
   "Pre-receipt",
   "Thanks Letter",
   "Honorarium Put up",
   "Protocal Office List Update",
   "Reimbursement (if any)",
   "Feedback from OTs",
   "Compiling Feedback",
   "Postal Card"]

/-- The content of the optional seed workbook: its checklist item
column and its faculty columns. -/
structure ExcelData where
  items : List String
  faculties : List String
deriving DecidableEq, Repr

/-- The default seed content written by the initialisation routine of
app_v5_excel.py (lines 168 to 277): one row per faculty column and
checklist item when the workbook is present and loads, otherwise one
Sample Faculty row per default checklist item.  A workbook whose load
raises is represented by passing none, since the exception handler
builds the identical default records. -/
def seedRecords (excel : Option ExcelData) (now today : String) : List Row :=
  match excel with
  | some e =>
    e.faculties.flatMap (fun f =>
      e.items.map (fun it =>
        { owner := "admin"
          name := (pyStrip f)
          designation := ""
          sessionName := ""
          sessionDate := ""
          item := it
          status := "Pending"
          remarks := ""
          lastUpdated := now
          updatedBy := "System" }))
  | none =>
    default_checklist_items.map (fun it =>
      { owner := "admin"
        name := "Sample Faculty"
        designation := "Guest Speaker"
        sessionName := "Sample Session"
        sessionDate := today
        item := it
        status := "Pending"
        remarks := "This is a sample entry. Add your own faculty from 'Manage Faculty' section."
        lastUpdated := now
        updatedBy := "System" })

/-- load_data of app_v5_excel.py (lines 279 to 309), parametrised by an
abstract CSV parser.  The persisted file is none when missing and
some of its raw content otherwise; the parser returns none when the
content is unparsable.  A missing, zero-length, or unparsable file, and
a parse that yields no rows or no columns, all raise internally, are
caught, and lead to removal of the file, reseeding, and a reload of the
fresh seed, so the caller always receives a store and never an error.
A well-formed file is returned as parsed; the backward-compatibility
backfill of missing columns is the identity here because every column
of the Row structure is total. -/
def load_data (parse : String → Option (List Row)) (excel : Option ExcelData)
    (now today : String) (file : Option String) : List Row :=
  match file with
  | none => seedRecords excel now today
  | some content =>
    if content = "" then seedRecords excel now today
    else
      match parse content with
      | none => seedRecords excel now today
      | some rows =>
        if rows = [] then seedRecords excel now today else rows

/-- Counting occurrences in a filtered list: an element passing the
predicate keeps its multiplicity, an element failing it is gone. -/
theorem count_filter_eq {α : Type} [DecidableEq α] (p : α → Bool) (l : List α) (a : α) :
    (l.filter p).count a = if p a then l.count a else 0 := by
  by_cases h : p a = true
  · rw [if_pos h, List.count_filter h]
  · rw [if_neg h]
    refine List.count_eq_zero.mpr (fun hmem => ?_)
    exact h (List.mem_filter.mp hmem).2

/-- Example Record Store row owned by alice. -/
def exRowAlice : Row :=
  { owner := "alice"
    name := "Dr Rao"
    designation := "Prof"
    sessionName := "Ethics"
    sessionDate := "2024-01-01"
    item := "Room Book"
    status := "Done"
    remarks := ""
    lastUpdated := "t0"
    updatedBy := "alice" }

/-- Example Record Store row owned by bob. -/
def exRowBob : Row :=
  { owner := "bob"
    name := "Dr Sen"
    designation := "Dean"
    sessionName := "Law"
    sessionDate := "2024-02-02"
    item := "Room Book"
    status := "Pending"
    remarks := ""
    lastUpdated := "t0"
    updatedBy := "bob" }

/-- Example two-owner Record Store. -/
def exStore : List Row := [exRowAlice, exRowBob]

/-- C1: for a session whose role is not admin, the pre-filter applied to
every Record Store read returns exactly the rows whose Owner equals the
session username, so no returned row has a different owner; for an
admin session the filter is bypassed and the whole store is visible. -/
theorem c1_role_filter_scopes_reads (role user : String) (rows : List Row) :
    (role ≠ "admin" →
      ∀ r : Row, r ∈ roleFilter role user rows ↔ r ∈ rows ∧ r.owner = user)
    ∧ (role = "admin" → roleFilter role user rows = rows) := by
  constructor
  · intro hrole r
    simp [roleFilter, if_pos hrole, List.mem_filter]
  · intro hrole
    simp [roleFilter, hrole]

/-- Witness for C1 at a concrete store: a user session keeps only its
own row and an admin session sees the store unchanged. -/
theorem c1_role_filter_scopes_reads_witness :
    (exRowAlice ∈ roleFilter "user" "alice" exStore ↔
      exRowAlice ∈ exStore ∧ exRowAlice.owner = "alice")
    ∧ roleFilter "admin" "alice" exStore = exStore :=
  ⟨(c1_role_filter_scopes_reads "user" "alice" exStore).1 (by decide) exRowAlice,
   (c1_role_filter_scopes_reads "admin" "alice" exStore).2 rfl⟩

/-- Example User Store rows. -/
def exUserAdmin : UserRow :=
  { username := "admin"
    password := "h-admin123"
    role := "admin"
    fullName := "Administrator"
    email := "a@x"
    createdDate := "t0"
    active := true }

/-- Example non-admin account with full name Alice. -/
def exUserAlice : UserRow :=
  { username := "alice"
    password := "h-pw1"
    role := "user"
    fullName := "Alice"
    email := "al@x"
    createdDate := "t1"
    active := true }

/-- Example User Store. -/
def exUsers : List UserRow := [exUserAdmin, exUserAlice]

/-- C4: deleting the account named admin is refused and leaves both
stores unchanged; deleting any other username removes exactly that
account from the User Store and exactly the Record Store rows that
username owns, preserving the multiplicity of every other account and
row. -/
theorem c4_delete_user_cascades (username : String) (users : List UserRow) (df : List Row) :
    (username = "admin" →
      delete_user username users df = (false, "Cannot delete admin account", users, df))
    ∧ (username ≠ "admin" →
      (delete_user username users df).1 = true
      ∧ (∀ u : UserRow, (delete_user username users df).2.2.1.count u =
          if u.username = username then 0 else users.count u)
      ∧ (∀ r : Row, (delete_user username users df).2.2.2.count r =
          if r.owner = username then 0 else df.count r)) := by
  constructor
  · intro h
    simp [delete_user, h]
  · intro h
    refine ⟨by simp [delete_user, h], fun u => ?_, fun r => ?_⟩
    · rw [delete_user, if_neg h]
      simp only
      rw [count_filter_eq]
      by_cases hu : u.username = username
      · simp [hu]
      · simp [hu]
    · rw [delete_user, if_neg h]
      simp only
      rw [count_filter_eq]
      by_cases hr : r.owner = username
      · simp [hr]
      · simp [hr]

/-- Witness for C4 at a concrete input: deleting bob removes the rows
bob owns and keeps the row alice owns with its multiplicity, and
deleting admin is refused with both stores unchanged. -/
theorem c4_delete_user_cascades_witness :
    ((delete_user "bob" exUsers exStore).2.2.2.count exRowBob =
      if exRowBob.owner = "bob" then 0 else exStore.count exRowBob)
    ∧ ((delete_user "bob" exUsers exStore).2.2.2.count exRowAlice =
      if exRowAlice.owner = "bob" then 0 else exStore.count exRowAlice)
    ∧ delete_user "admin" exUsers exStore =
      (false, "Cannot delete admin account", exUsers, exStore) :=
  ⟨((c4_delete_user_cascades "bob" exUsers exStore).2 (by decide)).2.2 exRowBob,
   ((c4_delete_user_cascades "bob" exUsers exStore).2 (by decide)).2.2 exRowAlice,
   (c4_delete_user_cascades "admin" exUsers exStore).1 rfl⟩

/-- C9: delete_faculty removes exactly the rows matching the
(owner, name, date) key, reports no error on any input since it returns
the saved store on every path, and is idempotent, including when no row
matches. -/
theorem c9_delete_faculty_idempotent (owner name sessionDate : String) (df : List Row) :
    (∀ r : Row, (delete_faculty owner name sessionDate df).count r =
      if r.owner = owner ∧ r.name = name ∧ r.sessionDate = sessionDate
      then 0 else df.count r)
    ∧ delete_faculty owner name sessionDate (delete_faculty owner name sessionDate df) =
      delete_faculty owner name sessionDate df := by
  constructor
  · intro r
    rw [delete_faculty, count_filter_eq]
    by_cases h : r.owner = owner ∧ r.name = name ∧ r.sessionDate = sessionDate
    · simp [h]
    · simp [h]
  · rw [delete_faculty, delete_faculty, List.filter_filter]
    congr 1
    funext r
    by_cases h : r.owner = owner ∧ r.name = name ∧ r.sessionDate = sessionDate
    · simp [h]
    · simp [h]

/-- Witness for C9 at a concrete input: deleting the visit of alice
removes her row, keeps the row of bob, and a second delete changes
nothing. -/
theorem c9_delete_faculty_idempotent_witness :
    ((delete_faculty "alice" "Dr Rao" "2024-01-01" exStore).count exRowAlice =
      if exRowAlice.owner = "alice" ∧ exRowAlice.name = "Dr Rao" ∧
         exRowAlice.sessionDate = "2024-01-01" then 0 else exStore.count exRowAlice)
    ∧ delete_faculty "alice" "Dr Rao" "2024-01-01"
        (delete_faculty "alice" "Dr Rao" "2024-01-01" exStore) =
      delete_faculty "alice" "Dr Rao" "2024-01-01" exStore :=
  ⟨(c9_delete_faculty_idempotent "alice" "Dr Rao" "2024-01-01" exStore).1 exRowAlice,
   (c9_delete_faculty_idempotent "alice" "Dr Rao" "2024-01-01" exStore).2⟩

/-- C5: authenticate_user returns the not-found triple when no account
carries the username, the inactive message when the first matching
account is inactive regardless of the supplied password, the
invalid-password message when the account is active but the stored hash
differs from the hash of the supplied password, and on success the role
and full name of the account. -/
theorem c5_authenticate_user_cases (hp : String → String) (users : List UserRow)
    (username password : String) :
    ((∀ u ∈ users, u.username ≠ username) →
      authenticate_user hp users username password = (false, none, none))
    ∧ (∀ u : UserRow, users.find? (fun v => v.username = username) = some u →
        (u.active = false →
          authenticate_user hp users username password =
            (false, none, some "Account is inactive"))
        ∧ (u.active = true → u.password = hp password →
          authenticate_user hp users username password =
            (true, some u.role, some u.fullName))
        ∧ (u.active = true → u.password ≠ hp password →
          authenticate_user hp users username password =
            (false, none, some "Invalid password"))) := by
  constructor
  · intro h
    have hnone : users.find? (fun v => v.username = username) = none := by
      rw [List.find?_eq_none]
      intro x hx
      simpa using h x hx
    simp [authenticate_user, hnone]
  · intro u hu
    refine ⟨?_, ?_, ?_⟩
    · intro hact
      simp [authenticate_user, hu, hact]
    · intro hact hpw
      simp [authenticate_user, hu, hact, hpw]
    · intro hact hpw
      simp [authenticate_user, hu, hact, hpw]

/-- Witness for C5 at a concrete store and hash: logging in as alice
with the matching password succeeds with her role and full name, and an
unknown username gives the not-found triple. -/
theorem c5_authenticate_user_cases_witness :
    authenticate_user (fun s => "h-" ++ s) exUsers "alice" "pw1" =
      (true, some exUserAlice.role, some exUserAlice.fullName)
    ∧ authenticate_user (fun s => "h-" ++ s) exUsers "carol" "pw1" =
      (false, none, none) :=
  ⟨(((c5_authenticate_user_cases (fun s => "h-" ++ s) exUsers "alice" "pw1").2
      exUserAlice (by decide)).2.1) rfl (by decide),
   (c5_authenticate_user_cases (fun s => "h-" ++ s) exUsers "carol" "pw1").1
      (by decide)⟩

/-- C10: a faculty name that strips to the empty string makes both
add_new_faculty and edit_faculty return the message Name cannot be
empty with no saved store, so the persisted Record Store is unchanged;
neither public contract in the specification mentions this
validation. -/
theorem c10_blank_name_rejected
    (owner name designation sessionName sessionDate
     oldName oldSessionDate newDesignation newSessionName newSessionDate now : String)
    (df : List Row) (h : (pyStrip name) = "") :
    add_new_faculty owner name designation sessionName sessionDate now df =
      ("Name cannot be empty", none)
    ∧ edit_faculty owner oldName oldSessionDate name newDesignation newSessionName
        newSessionDate now df = ("Name cannot be empty", none) := by
  constructor
  · simp [add_new_faculty, h]
  · simp [edit_faculty, h]

/-- Witness for C10 at a concrete whitespace-only name. -/
theorem c10_blank_name_rejected_witness :
    add_new_faculty "alice" " " "Prof" "Talk" "2024-03-03" "t1" exStore =
      ("Name cannot be empty", none)
    ∧ edit_faculty "alice" "Dr Rao" "2024-01-01" " " "Prof" "Talk" "2024-03-03"
        "t1" exStore = ("Name cannot be empty", none) :=
  c10_blank_name_rejected "alice" " " "Prof" "Talk" "2024-03-03"
    "Dr Rao" "2024-01-01" "Prof" "Talk" "2024-03-03" "t1" exStore (by decide)

/-- C8: when the persisted Record Store file is missing, zero-length,
unparsable, or parses to a table with no rows, load_data surfaces no
error: the file is discarded, the seed is rewritten, and the caller
receives exactly the default seed content. -/
theorem c8_load_data_self_heals (parse : String → Option (List Row))
    (excel : Option ExcelData) (now today : String) (file : Option String)
    (h : file = none ∨ file = some "" ∨
      ∃ c, file = some c ∧ (parse c = none ∨ parse c = some [])) :
    load_data parse excel now today file = seedRecords excel now today := by
  rcases h with h | h | ⟨c, hc, hp⟩
  · rw [h]
    rfl
  · rw [h]
    rfl
  · subst hc
    by_cases hce : c = ""
    · simp [load_data, hce]
    · rcases hp with hp | hp
      · simp [load_data, hce, hp]
      · simp [load_data, hce, hp]

/-- Witness for C8: loading a zero-byte file under a parser that
rejects everything yields the default seed content. -/
theorem c8_load_data_self_heals_witness :
    load_data (fun _ => none) none "t0" "2024-01-01" (some "") =
      seedRecords none "t0" "2024-01-01" :=
  c8_load_data_self_heals (fun _ => none) none "t0" "2024-01-01" (some "")
    (Or.inr (Or.inl rfl))

/-- Counterexample to C2 as stated: in the example store no row is
owned by carol, so the key (carol, blank name, 2024-03-03) has no
existing rows and the store knows exactly one distinct checklist item,
yet the create call inserts nothing and saves nothing, because the
source rejects a name that strips to the empty string before the
duplicate check the claim describes. -/
theorem c2_create_visit_counterexample :
    exStore.all (fun r => !(r.owner = "carol")) = true
    ∧ (exStore.map Row.item).toFinset.card = 1
    ∧ add_new_faculty "carol" " " "Prof" "Talk" "2024-03-03" "t1" exStore =
        ("Name cannot be empty", none) := by
  decide

/-- C2 amended: provided the faculty name is non-blank after stripping,
create-visit fails with the duplicate message and saves nothing when
rows with the key (owner, stripped name, session date) already exist,
and otherwise appends exactly one new Pending row per distinct
checklist item currently present in the store, each carrying the new
key, so the number of inserted rows equals the number of distinct
checklist items known to the store. -/
theorem c2_create_visit_amended (owner name designation sessionName sessionDate now : String)
    (df : List Row) (hname : pyStrip name ≠ "") :
    ((∃ r ∈ df, r.owner = owner ∧ r.name = pyStrip name ∧ r.sessionDate = sessionDate) →
      add_new_faculty owner name designation sessionName sessionDate now df =
        ("Faculty with this name and session date already exists", none))
    ∧ ((¬ ∃ r ∈ df, r.owner = owner ∧ r.name = pyStrip name ∧ r.sessionDate = sessionDate) →
      add_new_faculty owner name designation sessionName sessionDate now df =
        ("Success",
          some (df ++ newVisitRecords owner name designation sessionName sessionDate now df))
      ∧ (newVisitRecords owner name designation sessionName sessionDate now df).length =
          (df.map Row.item).toFinset.card
      ∧ (∀ r ∈ newVisitRecords owner name designation sessionName sessionDate now df,
          r.status = "Pending" ∧ r.owner = owner ∧ r.name = pyStrip name ∧
          r.sessionDate = sessionDate)
      ∧ (newVisitRecords owner name designation sessionName sessionDate now df).map Row.item =
          uniqueList (df.map Row.item)) := by
  constructor
  · intro hdup
    have hany : (df.any (fun r =>
        r.owner = owner ∧ r.name = pyStrip name ∧ r.sessionDate = sessionDate)) = true := by
      simp only [List.any_eq_true, decide_eq_true_eq]
      exact hdup
    rw [add_new_faculty, if_neg hname, if_pos hany]
  · intro hno
    have hany : (df.any (fun r =>
        r.owner = owner ∧ r.name = pyStrip name ∧ r.sessionDate = sessionDate)) ≠ true := by
      simp only [ne_eq, List.any_eq_true, decide_eq_true_eq]
      exact hno
    refine ⟨?_, ?_, ?_, ?_⟩
    · rw [add_new_faculty, if_neg hname, if_neg hany]
    · rw [newVisitRecords, List.length_map, length_uniqueList_eq_card]
    · intro r hr
      rw [newVisitRecords] at hr
      obtain ⟨it, hit, rfl⟩ := List.mem_map.mp hr
      exact ⟨rfl, rfl, rfl, rfl⟩
    · rw [newVisitRecords, List.map_map]
      exact List.map_id (uniqueList (df.map Row.item))

/-- Witness for the amended C2 at a concrete input: creating a fresh
visit for carol succeeds and inserts one row per distinct checklist
item of the store. -/
theorem c2_create_visit_amended_witness :
    add_new_faculty "carol" "Dr New" "Prof" "Talk" "2024-03-03" "t1" exStore =
      ("Success",
        some (exStore ++ newVisitRecords "carol" "Dr New" "Prof" "Talk" "2024-03-03" "t1" exStore))
    ∧ (newVisitRecords "carol" "Dr New" "Prof" "Talk" "2024-03-03" "t1" exStore).length =
        (exStore.map Row.item).toFinset.card :=
  have h := (c2_create_visit_amended "carol" "Dr New" "Prof" "Talk" "2024-03-03" "t1"
    exStore (by decide)).2 (by decide)
  ⟨h.1, h.2.1⟩

/-- The duplicate check of edit_faculty, which excludes rows carrying
the old (name, date) pair of any owner, detects exactly a collision of
the new key with a different existing visit of the same owner: rows
matching the new key carry the new name and date, so they survive the
exclusion precisely when the new (name, date) pair differs from the old
one. -/
theorem edit_collision_iff (owner oldName oldSessionDate newName newSessionDate : String)
    (df : List Row) :
    (df.any (fun r =>
      r.owner = owner ∧ r.name = pyStrip newName ∧ r.sessionDate = newSessionDate ∧
      !(r.name = oldName ∧ r.sessionDate = oldSessionDate)) = true)
    ↔ ((∃ r ∈ df, r.owner = owner ∧ r.name = pyStrip newName ∧
          r.sessionDate = newSessionDate)
        ∧ ¬(pyStrip newName = oldName ∧ newSessionDate = oldSessionDate)) := by
  simp only [List.any_eq_true, decide_eq_true_eq, Bool.not_eq_true',
    decide_eq_false_iff_not]
  constructor
  · rintro ⟨r, hr, h1, h2, h3, h4⟩
    exact ⟨⟨r, hr, h1, h2, h3⟩, fun hc => h4 ⟨h2.trans hc.1, h3.trans hc.2⟩⟩
  · rintro ⟨⟨r, hr, h1, h2, h3⟩, hne⟩
    exact ⟨r, hr, h1, h2, h3, fun hc => hne ⟨h2.symm.trans hc.1, h3.symm.trans hc.2⟩⟩

/-- Counterexample to C3 as stated: the example store has rows for the
old key (alice, Dr Rao, 2024-01-01) and no row whatever matches the new
key with the blank name, so the claim requires the rename to succeed
and update every row of the visit, yet the call changes nothing and
reports neither of the two errors the claim allows, because the source
rejects a new name that strips to the empty string first. -/
theorem c3_rename_visit_counterexample :
    exStore.any (fun r =>
      r.owner = "alice" ∧ r.name = "Dr Rao" ∧ r.sessionDate = "2024-01-01") = true
    ∧ exStore.all (fun r =>
      !(r.owner = "alice" ∧ r.name = pyStrip " " ∧ r.sessionDate = "2024-05-05")) = true
    ∧ edit_faculty "alice" "Dr Rao" "2024-01-01" " " "Prof" "Talk" "2024-05-05"
        "t2" exStore = ("Name cannot be empty", none) := by
  decide

/-- C3 amended: provided the new name is non-blank after stripping,
rename-visit fails with the duplicate message when the new key collides
with a different existing visit of the same owner, fails with the
not-found message when the old key has no rows, and otherwise rewrites
the store by applying renameRowIfMatch to every row, which stamps the
new key fields, Last Updated and Updated By on every row of the old
visit and leaves every other row unchanged. -/
theorem c3_rename_visit_amended (owner oldName oldSessionDate newName newDesignation
    newSessionName newSessionDate now : String) (df : List Row)
    (hname : pyStrip newName ≠ "") :
    (((∃ r ∈ df, r.owner = owner ∧ r.name = pyStrip newName ∧
          r.sessionDate = newSessionDate)
        ∧ ¬(pyStrip newName = oldName ∧ newSessionDate = oldSessionDate)) →
      edit_faculty owner oldName oldSessionDate newName newDesignation newSessionName
          newSessionDate now df =
        ("Faculty with this name and session date already exists", none))
    ∧ (¬((∃ r ∈ df, r.owner = owner ∧ r.name = pyStrip newName ∧
          r.sessionDate = newSessionDate)
        ∧ ¬(pyStrip newName = oldName ∧ newSessionDate = oldSessionDate)) →
      (¬ ∃ r ∈ df, r.owner = owner ∧ r.name = oldName ∧ r.sessionDate = oldSessionDate) →
      edit_faculty owner oldName oldSessionDate newName newDesignation newSessionName
          newSessionDate now df = ("Faculty not found", none))
    ∧ (¬((∃ r ∈ df, r.owner = owner ∧ r.name = pyStrip newName ∧
          r.sessionDate = newSessionDate)
        ∧ ¬(pyStrip newName = oldName ∧ newSessionDate = oldSessionDate)) →
      (∃ r ∈ df, r.owner = owner ∧ r.name = oldName ∧ r.sessionDate = oldSessionDate) →
      edit_faculty owner oldName oldSessionDate newName newDesignation newSessionName
          newSessionDate now df =
        ("Success", some (df.map (renameRowIfMatch owner oldName oldSessionDate
          newName newDesignation newSessionName newSessionDate now)))
      ∧ (∀ r : Row, ¬(r.owner = owner ∧ r.name = oldName ∧ r.sessionDate = oldSessionDate) →
          renameRowIfMatch owner oldName oldSessionDate newName newDesignation
            newSessionName newSessionDate now r = r)
      ∧ (∀ r : Row, (r.owner = owner ∧ r.name = oldName ∧ r.sessionDate = oldSessionDate) →
          (renameRowIfMatch owner oldName oldSessionDate newName newDesignation
            newSessionName newSessionDate now r).name = pyStrip newName
          ∧ (renameRowIfMatch owner oldName oldSessionDate newName newDesignation
            newSessionName newSessionDate now r).designation = pyStrip newDesignation
          ∧ (renameRowIfMatch owner oldName oldSessionDate newName newDesignation
            newSessionName newSessionDate now r).sessionName = pyStrip newSessionName
          ∧ (renameRowIfMatch owner oldName oldSessionDate newName newDesignation
            newSessionName newSessionDate now r).sessionDate = newSessionDate
          ∧ (renameRowIfMatch owner oldName oldSessionDate newName newDesignation
            newSessionName newSessionDate now r).lastUpdated = now
          ∧ (renameRowIfMatch owner oldName oldSessionDate newName newDesignation
            newSessionName newSessionDate now r).updatedBy = owner
          ∧ (renameRowIfMatch owner oldName oldSessionDate newName newDesignation
            newSessionName newSessionDate now r).owner = r.owner
          ∧ (renameRowIfMatch owner oldName oldSessionDate newName newDesignation
            newSessionName newSessionDate now r).item = r.item
          ∧ (renameRowIfMatch owner oldName oldSessionDate newName newDesignation
            newSessionName newSessionDate now r).status = r.status
          ∧ (renameRowIfMatch owner oldName oldSessionDate newName newDesignation
            newSessionName newSessionDate now r).remarks = r.remarks)) := by
  refine ⟨?_, ?_, ?_⟩
  · intro hcol
    rw [edit_faculty, if_neg hname, if_pos
      ((edit_collision_iff owner oldName oldSessionDate newName newSessionDate df).mpr hcol)]
  · intro hcol hnold
    have hc : (df.any (fun r =>
        r.owner = owner ∧ r.name = pyStrip newName ∧ r.sessionDate = newSessionDate ∧
        !(r.name = oldName ∧ r.sessionDate = oldSessionDate))) ≠ true :=
      fun hx => hcol
        ((edit_collision_iff owner oldName oldSessionDate newName newSessionDate df).mp hx)
    have hof : (df.any (fun r =>
        r.owner = owner ∧ r.name = oldName ∧ r.sessionDate = oldSessionDate)) = false := by
      cases hcase : df.any (fun r =>
          r.owner = owner ∧ r.name = oldName ∧ r.sessionDate = oldSessionDate) with
      | false => rfl
      | true =>
        exact absurd (by simpa only [List.any_eq_true, decide_eq_true_eq] using hcase) hnold
    rw [edit_faculty, if_neg hname, if_neg hc, if_pos (by rw [hof]; rfl)]
  · intro hcol hold
    have hc : (df.any (fun r =>
        r.owner = owner ∧ r.name = pyStrip newName ∧ r.sessionDate = newSessionDate ∧
        !(r.name = oldName ∧ r.sessionDate = oldSessionDate))) ≠ true :=
      fun hx => hcol
        ((edit_collision_iff owner oldName oldSessionDate newName newSessionDate df).mp hx)
    have hof : (df.any (fun r =>
        r.owner = owner ∧ r.name = oldName ∧ r.sessionDate = oldSessionDate)) = true := by
      simp only [List.any_eq_true, decide_eq_true_eq]
      exact hold
    refine ⟨?_, ?_, ?_⟩
    · rw [edit_faculty, if_neg hname, if_neg hc, if_neg (by rw [hof]; simp)]
    · intro r hr
      rw [renameRowIfMatch, if_neg hr]
    · intro r hr
      rw [renameRowIfMatch, if_pos hr]
      exact ⟨rfl, rfl, rfl, rfl, rfl, rfl, rfl, rfl, rfl, rfl⟩

/-- Witness for the amended C3 at a concrete input: renaming the visit
of alice to a fresh non-blank name succeeds, updates the key fields of
her row, and leaves the row of bob unchanged. -/
theorem c3_rename_visit_amended_witness :
    edit_faculty "alice" "Dr Rao" "2024-01-01" "Dr Rao II" "Prof" "Law II" "2024-06-06"
        "t2" exStore =
      ("Success", some (exStore.map (renameRowIfMatch "alice" "Dr Rao" "2024-01-01"
        "Dr Rao II" "Prof" "Law II" "2024-06-06" "t2")))
    ∧ renameRowIfMatch "alice" "Dr Rao" "2024-01-01" "Dr Rao II" "Prof" "Law II"
        "2024-06-06" "t2" exRowBob = exRowBob
    ∧ (renameRowIfMatch "alice" "Dr Rao" "2024-01-01" "Dr Rao II" "Prof" "Law II"
        "2024-06-06" "t2" exRowAlice).name = pyStrip "Dr Rao II" :=
  have h := (c3_rename_visit_amended "alice" "Dr Rao" "2024-01-01" "Dr Rao II" "Prof"
    "Law II" "2024-06-06" "t2" exStore (by decide)).2.2 (by decide) (by decide)
  ⟨h.1, h.2.1 exRowBob (by decide), (h.2.2 exRowAlice (by decide)).1⟩

/-- updateFirst finds nothing when no element satisfies the predicate. -/
theorem updateFirst_eq_none {α : Type} (p : α → Bool) (f : α → α) :
    ∀ l : List α, (∀ x ∈ l, ¬ p x = true) → updateFirst p f l = none := by
  intro l
  induction l with
  | nil => intro; rfl
  | cons x xs ih =>
    intro h
    rw [updateFirst, if_neg (h x (List.mem_cons_self x xs)),
      ih (fun y hy => h y (List.mem_cons_of_mem x hy))]
    rfl

/-- updateFirst rewrites exactly the first matching element when the
prefix before it contains no match. -/
theorem updateFirst_append {α : Type} (p : α → Bool) (f : α → α) (u : α)
    (hu : p u = true) :
    ∀ (pre post : List α), (∀ v ∈ pre, ¬ p v = true) →
      updateFirst p f (pre ++ u :: post) = some (pre ++ f u :: post) := by
  intro pre
  induction pre with
  | nil =>
    intro post _
    simp [updateFirst, hu]
  | cons x xs ih =>
    intro post h
    rw [List.cons_append, updateFirst, if_neg (h x (List.mem_cons_self x xs)),
      ih post (fun y hy => h y (List.mem_cons_of_mem x hy))]
    rfl

/-- Counterexample to C7 as stated: the account alice exists and the
full-name field is supplied as the empty string, but the stored full
name Alice is left untouched rather than overwritten, because the
source tests the bare Python value of each string argument and the
empty string is falsy. -/
theorem c7_update_account_counterexample :
    update_user (fun s => s) [exUserAlice] "alice" (some "") none none none =
      (true, "User updated successfully", [exUserAlice])
    ∧ exUserAlice.fullName = "Alice" := by
  decide

/-- C7 amended: update-account fails with the not-found message and an
unchanged store when no account carries the username; otherwise it
rewrites exactly the first matching account, leaving every other
account unchanged, and on that account a supplied non-empty string
overwrites the field, a supplied empty string or an absent argument
leaves the field untouched, the password is rehashed exactly when a
supplied password is non-empty, any supplied active flag, including
false, overwrites, and the username, role and creation date are never
touched. -/
theorem c7_update_account_amended (hp : String → String) (users : List UserRow)
    (username : String) (fullName email password : Option String)
    (active : Option Bool) :
    ((∀ u ∈ users, u.username ≠ username) →
      update_user hp users username fullName email password active =
        (false, "User not found", users))
    ∧ (∀ pre u post, users = pre ++ u :: post →
        (∀ v ∈ pre, v.username ≠ username) → u.username = username →
        update_user hp users username fullName email password active =
          (true, "User updated successfully",
            pre ++ applyUserUpdates hp fullName email password active u :: post))
    ∧ (∀ u : UserRow,
        (applyUserUpdates hp fullName email password active u).username = u.username
        ∧ (applyUserUpdates hp fullName email password active u).role = u.role
        ∧ (applyUserUpdates hp fullName email password active u).createdDate =
            u.createdDate
        ∧ (∀ s, fullName = some s → s ≠ "" →
            (applyUserUpdates hp fullName email password active u).fullName = s)
        ∧ (fullName = none ∨ fullName = some "" →
            (applyUserUpdates hp fullName email password active u).fullName = u.fullName)
        ∧ (∀ s, email = some s → s ≠ "" →
            (applyUserUpdates hp fullName email password active u).email = s)
        ∧ (email = none ∨ email = some "" →
            (applyUserUpdates hp fullName email password active u).email = u.email)
        ∧ (∀ s, password = some s → s ≠ "" →
            (applyUserUpdates hp fullName email password active u).password = hp s)
        ∧ (password = none ∨ password = some "" →
            (applyUserUpdates hp fullName email password active u).password = u.password)
        ∧ (∀ b, active = some b →
            (applyUserUpdates hp fullName email password active u).active = b)
        ∧ (active = none →
            (applyUserUpdates hp fullName email password active u).active = u.active)) := by
  refine ⟨?_, ?_, ?_⟩
  · intro h
    rw [update_user, updateFirst_eq_none _ _ users (fun x hx => by simpa using h x hx)]
  · intro pre u post hsplit hpre hu
    rw [update_user, hsplit, updateFirst_append _ _ u (by simpa using hu) pre post
      (fun v hv => by simpa using hpre v hv)]
  · intro u
    refine ⟨rfl, rfl, rfl, ?_, ?_, ?_, ?_, ?_, ?_, ?_, ?_⟩
    · rintro s rfl hs
      simp [applyUserUpdates, hs]
    · rintro (rfl | rfl) <;> simp [applyUserUpdates]
    · rintro s rfl hs
      simp [applyUserUpdates, hs]
    · rintro (rfl | rfl) <;> simp [applyUserUpdates]
    · rintro s rfl hs
      simp [applyUserUpdates, hs]
    · rintro (rfl | rfl) <;> simp [applyUserUpdates]
    · rintro b rfl
      simp [applyUserUpdates]
    · rintro rfl
      simp [applyUserUpdates]

/-- Witness for the amended C7 at a concrete input: updating alice with
a non-empty full name, a non-empty new password and an explicit
inactive flag rewrites exactly her account and leaves the admin
account in place. -/
theorem c7_update_account_amended_witness :
    update_user (fun s => "h-" ++ s) exUsers "alice" (some "Alicia") none
        (some "pw2") (some false) =
      (true, "User updated successfully",
        [exUserAdmin] ++ applyUserUpdates (fun s => "h-" ++ s) (some "Alicia") none
          (some "pw2") (some false) exUserAlice :: [])
    ∧ (applyUserUpdates (fun s => "h-" ++ s) (some "Alicia") none (some "pw2")
        (some false) exUserAlice).fullName = "Alicia" :=
  have h := c7_update_account_amended (fun s => "h-" ++ s) exUsers "alice"
    (some "Alicia") none (some "pw2") (some false)
  ⟨h.2.1 [exUserAdmin] exUserAlice [] rfl (by decide) rfl,
   (h.2.2 exUserAlice).2.2.2.1 "Alicia" rfl (by decide)⟩

/-- Counting rows of a visit with a given status: filtering by the key
and then by the status counts the rows satisfying both. -/
theorem visit_status_count (df : List Row) (ow nm sd st : String) :
    ((df.filter (fun r => r.owner = ow ∧ r.name = nm ∧ r.sessionDate = sd)).filter
      (fun r => r.status = st)).length =
    df.countP (fun r => r.owner = ow ∧ r.name = nm ∧ r.sessionDate = sd ∧
      r.status = st) := by
  rw [← List.countP_eq_length_filter, List.countP_filter]
  refine List.countP_congr (fun r hr => ?_)
  simp only [Bool.and_eq_true, decide_eq_true_eq]
  tauto

/-- The total row count of a visit is the count of rows matching its
key. -/
theorem visit_total_count (df : List Row) (ow nm sd : String) :
    (df.filter (fun r => r.owner = ow ∧ r.name = nm ∧ r.sessionDate = sd)).length =
    df.countP (fun r => r.owner = ow ∧ r.name = nm ∧ r.sessionDate = sd) :=
  (List.countP_eq_length_filter _ df).symm

/-- The two spellings of the zero-guard around the progress ratio agree:
the source branches on total greater than zero, the claim on total
equal to zero. -/
theorem progress_guard_flip (total done : Nat) :
    (if total > 0 then round1 ((done : ℚ) / (total : ℚ) * 100) else 0) =
    (if total = 0 then 0 else round1 ((done : ℚ) / (total : ℚ) * 100)) := by
  rcases Nat.eq_zero_or_pos total with h | h
  · simp [h]
  · rw [if_pos h, if_neg (Nat.pos_iff_ne_zero.mp h)]

/-- C6: every row of the summary carries the counts of Done, Pending
and NA rows of its visit key, its total is the number of rows of the
key, and its progress is Done over Total times one hundred rounded to
one decimal place, with zero when the visit has zero rows. -/
theorem c6_summary_counts_and_progress (df : List Row) (e : SummaryRow)
    (he : e ∈ get_faculty_summary df) :
    e.done = df.countP (fun r => r.owner = e.owner ∧ r.name = e.name ∧
        r.sessionDate = e.sessionDate ∧ r.status = "Done")
    ∧ e.pending = df.countP (fun r => r.owner = e.owner ∧ r.name = e.name ∧
        r.sessionDate = e.sessionDate ∧ r.status = "Pending")
    ∧ e.na = df.countP (fun r => r.owner = e.owner ∧ r.name = e.name ∧
        r.sessionDate = e.sessionDate ∧ r.status = "NA")
    ∧ e.totalItems = df.countP (fun r => r.owner = e.owner ∧ r.name = e.name ∧
        r.sessionDate = e.sessionDate)
    ∧ e.progressPct = (if e.totalItems = 0 then 0
        else round1 ((e.done : ℚ) / (e.totalItems : ℚ) * 100))
    ∧ (∀ r ∈ df, ∃ s ∈ get_faculty_summary df,
        s.owner = r.owner ∧ s.name = r.name ∧ s.sessionDate = r.sessionDate) := by
  obtain ⟨k, hkmem, rfl⟩ := List.mem_map.mp he
  obtain ⟨ow, nm, sd, dg, sn⟩ := k
  refine ⟨visit_status_count df ow nm sd "Done",
    visit_status_count df ow nm sd "Pending",
    visit_status_count df ow nm sd "NA",
    visit_total_count df ow nm sd,
    progress_guard_flip _ _, ?_⟩
  intro r hr
  exact ⟨summaryOfKey df (r.owner, r.name, r.sessionDate, r.designation, r.sessionName),
    List.mem_map_of_mem _ ((mem_uniqueList _ _).mpr (List.mem_map_of_mem _ hr)),
    rfl, rfl, rfl⟩

/-- A single visit of four rows with two Done, one Pending and one NA,
used to check the concrete progress value of fifty percent. -/
def exVisit4 : List Row :=
  [{ owner := "alice", name := "Dr Vis", designation := "Prof",
     sessionName := "S", sessionDate := "2024-07-07", item := "Room Book",
     status := "Done", remarks := "", lastUpdated := "t0", updatedBy := "alice" },
   { owner := "alice", name := "Dr Vis", designation := "Prof",
     sessionName := "S", sessionDate := "2024-07-07", item := "Name Plate",
     status := "Done", remarks := "", lastUpdated := "t0", updatedBy := "alice" },
   { owner := "alice", name := "Dr Vis", designation := "Prof",
     sessionName := "S", sessionDate := "2024-07-07", item := "Tour Program",
     status := "Pending", remarks := "", lastUpdated := "t0", updatedBy := "alice" },
   { owner := "alice", name := "Dr Vis", designation := "Prof",
     sessionName := "S", sessionDate := "2024-07-07", item := "Postal Card",
     status := "NA", remarks := "", lastUpdated := "t0", updatedBy := "alice" }]

/-- Witness for C6 at the concrete four-row visit of the claim: the
summary row has two Done, one Pending, one NA out of four rows and its
progress is exactly fifty. -/
theorem c6_summary_counts_and_progress_witness :
    (summaryOfKey exVisit4 ("alice", "Dr Vis", "2024-07-07", "Prof", "S")).done = 2
    ∧ (summaryOfKey exVisit4 ("alice", "Dr Vis", "2024-07-07", "Prof", "S")).pending = 1
    ∧ (summaryOfKey exVisit4 ("alice", "Dr Vis", "2024-07-07", "Prof", "S")).na = 1
    ∧ (summaryOfKey exVisit4 ("alice", "Dr Vis", "2024-07-07", "Prof", "S")).totalItems = 4
    ∧ (summaryOfKey exVisit4 ("alice", "Dr Vis", "2024-07-07", "Prof", "S")).progressPct
        = 50 := by
  have hmem : summaryOfKey exVisit4 ("alice", "Dr Vis", "2024-07-07", "Prof", "S") ∈
      get_faculty_summary exVisit4 := by
    show summaryOfKey exVisit4 ("alice", "Dr Vis", "2024-07-07", "Prof", "S") ∈
      [summaryOfKey exVisit4 ("alice", "Dr Vis", "2024-07-07", "Prof", "S")]
    exact List.mem_singleton_self _
  have h := c6_summary_counts_and_progress exVisit4 _ hmem
  have hdone : (summaryOfKey exVisit4 ("alice", "Dr Vis", "2024-07-07", "Prof", "S")).done
      = 2 := by
    rw [h.1]; decide
  have hpend : (summaryOfKey exVisit4 ("alice", "Dr Vis", "2024-07-07", "Prof", "S")).pending
      = 1 := by
    rw [h.2.1]; decide
  have hna : (summaryOfKey exVisit4 ("alice", "Dr Vis", "2024-07-07", "Prof", "S")).na
      = 1 := by
    rw [h.2.2.1]; decide
  have htot : (summaryOfKey exVisit4 ("alice", "Dr Vis", "2024-07-07", "Prof", "S")).totalItems
      = 4 := by
    rw [h.2.2.2.1]; decide
  refine ⟨hdone, hpend, hna, htot, ?_⟩
  rw [h.2.2.2.2.1, hdone, htot]
  norm_num [round1]
